import Mathlib

/-!
Verification of the chat_service messaging core against its specification.

The definitions below are a shallow embedding of the Python source:
* `src/messaging/models.py` — conversations, participants, messages,
  reactions, and the rate-limit tracker;
* `src/messaging/views.py` — the `send`, `react`, `remove_reaction` and
  `bulk_mark_read` endpoints of `MessageViewSet`;
* `src/messaging/webhooks.py` — the `deliver_webhook` Celery task;
* `src/messaging/content_moderation.py` — `ContentModerator.moderate_text`;
* `src/messaging/tasks.py` — `process_message_encryption`.

Django model instances become Lean structures, the database becomes explicit
lists of rows threaded through each operation, `timezone.now()` becomes an
explicit `now : Nat` parameter (seconds), and Python exceptions become
`Except`/error results.  Python float constants appearing in the moderation
module (`0.7`, `0.9`, …) are exact decimal literals used only in comparisons
and `max`, so they are embedded as the corresponding rationals.
-/

namespace ChatService

/-- `ConversationType` text choices from `models.py`. -/
inductive ConversationType
  | direct
  | group
  | channel
deriving DecidableEq

/-- `MessageType` text choices from `models.py`. -/
inductive MessageType
  | text
  | image
  | file
  | voice
  | video
  | location
  | system
deriving DecidableEq

/-- `MessageStatus` text choices from `models.py`. -/
inductive MessageStatus
  | sent
  | delivered
  | read
  | failed
deriving DecidableEq

/-- `ParticipantRole` text choices from `models.py`. -/
inductive ParticipantRole
  | admin
  | moderator
  | member
deriving DecidableEq

/-- The `Conversation` model (the fields the verified operations touch).
Users are referenced by their integer primary key.  `participant1` and
`participant2` are the nullable direct-message participant foreign keys. -/
structure Conversation where
  id : Nat
  conversation_type : ConversationType
  title : Option String := none
  participant1 : Option Nat := none
  participant2 : Option Nat := none
  created_by : Option Nat := none
  is_active : Bool := true
  max_participants : Nat := 256
  last_message_at : Nat := 0
deriving DecidableEq

/-- A `ConversationParticipant` row (group/channel membership). -/
structure ConversationParticipant where
  conversation_id : Nat
  user_id : Nat
  role : ParticipantRole := ParticipantRole.member
  is_active : Bool := true
  joined_at : Nat := 0
  left_at : Option Nat := none
deriving DecidableEq

/-- The `Message` model (the fields the verified operations touch).
`content` is the nullable text field; `has_file` records whether the
nullable `file` attachment is present; latitude/longitude are the nullable
geo fields of location messages. -/
structure Message where
  id : Nat
  conversation_id : Nat
  sender_id : Nat
  message_type : MessageType := MessageType.text
  content : Option String := none
  has_file : Bool := false
  latitude : Option Int := none
  longitude : Option Int := none
  status : MessageStatus := MessageStatus.sent
  delivered_at : Option Nat := none
  read_at : Option Nat := none
  is_edited : Bool := false
  is_deleted : Bool := false
  reply_to : Option Nat := none
deriving DecidableEq

/-- `Message.mark_as_delivered` (models.py lines 441–446): only a `sent`
message transitions, to `delivered`, stamping `delivered_at`. -/
def mark_as_delivered (now : Nat) (m : Message) : Message :=
  if m.status = MessageStatus.sent then
    { m with status := MessageStatus.delivered, delivered_at := some now }
  else
    m

/-- `Message.mark_as_read` (models.py lines 448–453): a `sent` or
`delivered` message transitions to `read`, stamping `read_at`. -/
def mark_as_read (now : Nat) (m : Message) : Message :=
  if m.status = MessageStatus.sent ∨ m.status = MessageStatus.delivered then
    { m with status := MessageStatus.read, read_at := some now }
  else
    m

/-- The store of direct conversations: the `Conversation` table plus the
auto-increment id counter. -/
structure ConvStore where
  conversations : List Conversation := []
  next_id : Nat := 0
deriving DecidableEq

/-- The filter used by `get_or_create_direct_conversation`'s
`objects.get_or_create(conversation_type=DIRECT, participant1=u1,
participant2=u2)` lookup. -/
def isDirectBetween (a b : Nat) (c : Conversation) : Bool :=
  c.conversation_type = ConversationType.direct &&
  c.participant1 = some a && c.participant2 = some b

/-- The `objects.get_or_create(conversation_type=DIRECT, participant1=a,
participant2=b)` call inside `get_or_create_direct_conversation`: return
the existing row, or insert a fresh one under the next auto-increment id.
Returns the conversation, the `created` flag, and the updated store. -/
def direct_get_or_create (s : ConvStore) (a b : Nat) :
    Conversation × Bool × ConvStore :=
  match s.conversations.find? (isDirectBetween a b) with
  | some c => (c, false, s)
  | none =>
      let c : Conversation :=
        { id := s.next_id, conversation_type := ConversationType.direct,
          participant1 := some a, participant2 := some b }
      (c, true,
        { conversations := s.conversations ++ [c], next_id := s.next_id + 1 })

/-- `Conversation.get_or_create_direct_conversation` (models.py lines
134–148): reject self-conversations, swap the pair when
`user1.id > user2.id` so the smaller id comes first, then `get_or_create`
on the normalised key. -/
def get_or_create_direct_conversation (s : ConvStore) (user1 user2 : Nat) :
    Except String (Conversation × Bool × ConvStore) :=
  if user1 = user2 then
    Except.error "Users cannot have conversations with themselves."
  else if user1 > user2 then
    Except.ok (direct_get_or_create s user2 user1)
  else
    Except.ok (direct_get_or_create s user1 user2)

/-- A direct conversation stores its participants in canonical order:
lower user id in `participant1`. -/
def directOrdered (c : Conversation) : Prop :=
  c.conversation_type = ConversationType.direct →
    ∃ p q, c.participant1 = some p ∧ c.participant2 = some q ∧ p < q

/-- No two stored direct conversations share the same participant pair. -/
def directUnique (s : ConvStore) : Prop :=
  ∀ c ∈ s.conversations, ∀ d ∈ s.conversations,
    c.conversation_type = ConversationType.direct →
    d.conversation_type = ConversationType.direct →
    c.participant1 = d.participant1 → c.participant2 = d.participant2 → c = d

/-- A `RateLimitTracker` row (models.py lines 797–808): one counter per
(user, action_type, window_start). -/
structure RateLimitTracker where
  user_id : Nat
  action_type : String
  window_start : Nat
  count : Nat
deriving DecidableEq

/-- The `RateLimitTracker` table. -/
structure RateState where
  trackers : List RateLimitTracker := []
deriving DecidableEq

/-- The `(user, action_type, window_start)` key filter of the
`objects.get_or_create` lookup in `check_rate_limit`. -/
def trackerKeyMatches (user : Nat) (action : String) (ws : Nat)
    (t : RateLimitTracker) : Bool :=
  t.user_id = user && t.action_type = action && t.window_start = ws

/-- `now.replace(second=0, microsecond=0)`: the start of the current
minute, with `now` counted in seconds. -/
def minuteWindowStart (now : Nat) : Nat := now / 60 * 60

/-- The count stored for a `(user, action, window_start)` bucket, zero if
no row exists. -/
def bucket_count (s : RateState) (user : Nat) (action : String)
    (ws : Nat) : Nat :=
  match s.trackers.find? (trackerKeyMatches user action ws) with
  | some t => t.count
  | none => 0

/-- `RateLimitTracker.check_rate_limit` (models.py lines 810–831):
`get_or_create` the current minute's tracker with `defaults={'count': 0}`;
if `tracker.count >= limit_per_minute` return `False` (the rejection
branch returns before the increment); otherwise increment the counter,
save, and return `True`. -/
def check_rate_limit (s : RateState) (user : Nat) (action : String)
    (limit_per_minute : Nat) (now : Nat) : Bool × RateState :=
  let ws := minuteWindowStart now
  match s.trackers.find? (trackerKeyMatches user action ws) with
  | some t =>
      if t.count ≥ limit_per_minute then
        (false, s)
      else
        (true,
          { trackers := s.trackers.map (fun u =>
              if trackerKeyMatches user action ws u then
                { u with count := u.count + 1 }
              else u) })
  | none =>
      let t : RateLimitTracker :=
        { user_id := user, action_type := action, window_start := ws,
          count := 0 }
      if t.count ≥ limit_per_minute then
        (false, { trackers := s.trackers ++ [t] })
      else
        (true, { trackers := s.trackers ++ [{ t with count := 1 }] })

/-- `n` successive `check_rate_limit` calls for the same user, action,
limit and clock instant, threading the tracker table. -/
def iterate_calls (user : Nat) (action : String) (limit now : Nat) :
    Nat → RateState → RateState
  | 0, s => s
  | Nat.succ n, s =>
      iterate_calls user action limit now n
        (check_rate_limit s user action limit now).2

/-- The membership condition of the direct-conversation branch of
`get_user_conversations`: `Q(participant1=user) | Q(participant2=user)`,
`conversation_type=DIRECT`, `is_active=True`. -/
def directBranchFilter (user : Nat) (c : Conversation) : Bool :=
  (c.participant1 = some user || c.participant2 = some user) &&
  c.conversation_type = ConversationType.direct && c.is_active

/-- The membership condition of the group/channel branch of
`get_user_conversations`: a join on `participants__user=user` (note: the
join does not constrain the membership row's `is_active`),
`conversation_type__in=[GROUP, CHANNEL]`, `is_active=True`. -/
def groupBranchFilter (parts : List ConversationParticipant) (user : Nat)
    (c : Conversation) : Bool :=
  parts.any (fun p => p.conversation_id = c.id && p.user_id = user) &&
  (c.conversation_type = ConversationType.group ||
    c.conversation_type = ConversationType.channel) &&
  c.is_active

/-- `Conversation.get_user_conversations` (models.py lines 180–197):
`(direct_conversations | group_conversations).distinct()
.order_by('-last_message_at')`.  The union of the two filters over the
conversation table is the filter of their disjunction; the ordering is by
`last_message_at` descending. -/
def get_user_conversations (convs : List Conversation)
    (parts : List ConversationParticipant) (user : Nat) :
    List Conversation :=
  (convs.filter (fun c =>
      directBranchFilter user c || groupBranchFilter parts user c)).mergeSort
    (fun c d => decide (d.last_message_at ≤ c.last_message_at))

/-- A group conversation used in concrete runs: id 1, active, created by
user 9. -/
def teamConv : Conversation :=
  { id := 1, conversation_type := ConversationType.group,
    title := some "Team", created_by := some 9, last_message_at := 10 }

/-- A membership row recording that user 5 left `teamConv`:
`is_active = false`, `left_at` set — removal is logical, the row stays. -/
def leftMembershipRow : ConversationParticipant :=
  { conversation_id := 1, user_id := 5, is_active := false,
    left_at := some 99 }

/-- A `WebhookEndpoint` row (models.py lines 878–892); the statistics
fields `total_sent` / `total_failed` / `last_sent_at` are the ones
`deliver_webhook` updates. -/
structure WebhookEndpoint where
  id : Nat
  url : String
  secret_key : String
  is_active : Bool := true
  total_sent : Nat := 0
  total_failed : Nat := 0
  last_sent_at : Option Nat := none
deriving DecidableEq

/-- A `WebhookDelivery` row (models.py lines 895–904).  The JSON payload
and the truncated response body are irrelevant to the verified claims and
omitted. -/
structure WebhookDelivery where
  endpoint_id : Nat
  event_type : String
  response_status : Option Nat := none
  delivery_attempts : Nat := 0
  is_delivered : Bool := false
  next_retry_at : Option Nat := none
deriving DecidableEq

/-- The outcome of the `requests.post` call: an HTTP status code, or a
raised transport exception. -/
inductive HttpResult
  | status (code : Nat)
  | transportError
deriving DecidableEq

/-- The final state of a `deliver_webhook` task: completed normally, gave
up after `max_retries`, or the response oracle ran dry. -/
inductive TaskOutcome
  | success
  | failedMaxRetries
  | noResponse
deriving DecidableEq

/-- One execution of the `try` block of `deliver_webhook` (webhooks.py
lines 36–96): create the `WebhookDelivery` record with
`delivery_attempts=1`, POST, then on a status response record the status
and either mark delivered + bump `total_sent` (only for status exactly
200) or bump `total_failed` and schedule `next_retry_at = now + 5
minutes × attempts`.  The returned flag is whether the body raised (a
transport error propagates; a non-delivered record with
`delivery_attempts < 3` raises to trigger a Celery retry). -/
def deliver_webhook_body (event_type : String) (now : Nat)
    (resp : HttpResult) (ep : WebhookEndpoint)
    (deliveries : List WebhookDelivery) :
    WebhookEndpoint × List WebhookDelivery × Bool :=
  let delivery : WebhookDelivery :=
    { endpoint_id := ep.id, event_type := event_type,
      delivery_attempts := 1 }
  match resp with
  | HttpResult.transportError => (ep, deliveries ++ [delivery], true)
  | HttpResult.status code =>
      let d1 : WebhookDelivery := { delivery with response_status := some code }
      if code = 200 then
        let d2 : WebhookDelivery := { d1 with is_delivered := true }
        ({ ep with
            total_sent := ep.total_sent + 1,
            last_sent_at := some now },
         deliveries ++ [d2],
         !d2.is_delivered && decide (d2.delivery_attempts < 3))
      else
        let d2 : WebhookDelivery :=
          { d1 with
            next_retry_at := some (now + 300 * d1.delivery_attempts) }
        ({ ep with total_failed := ep.total_failed + 1 },
         deliveries ++ [d2],
         !d2.is_delivered && decide (d2.delivery_attempts < 3))

/-- The Celery retry loop around `deliver_webhook`
(`@shared_task(bind=True, max_retries=3)` with
`self.retry(countdown=60 * (2 ** self.request.retries))`): each entry in
`responses` is the `(now, HTTP outcome)` of one execution; when the body
raises and `retries < max_retries` the task re-runs after a delay of
`60 × 2^retries` seconds.  Returns the endpoint, the delivery records,
the outcome, and the list of retry delays in order. -/
def deliver_webhook_run (event_type : String) (max_retries : Nat) :
    List (Nat × HttpResult) → Nat → WebhookEndpoint →
      List WebhookDelivery →
      WebhookEndpoint × List WebhookDelivery × TaskOutcome × List Nat
  | [], _, ep, ds => (ep, ds, TaskOutcome.noResponse, [])
  | (now, resp) :: rest, retries, ep, ds =>
      match deliver_webhook_body event_type now resp ep ds with
      | (ep2, ds2, false) => (ep2, ds2, TaskOutcome.success, [])
      | (ep2, ds2, true) =>
          if retries < max_retries then
            let r := deliver_webhook_run event_type max_retries rest
              (retries + 1) ep2 ds2
            (r.1, r.2.1, r.2.2.1, 60 * 2 ^ retries :: r.2.2.2)
          else
            (ep2, ds2, TaskOutcome.failedMaxRetries, [])

/-- A concrete webhook endpoint used in concrete runs. -/
def hookEndpoint : WebhookEndpoint :=
  { id := 1, url := "https://example.com/hook", secret_key := "s3cret" }

/-! ### Content moderation (content_moderation.py)

The four `INAPPROPRIATE_PATTERNS` regexes are embedded as executable
character-list matchers.  All patterns are applied case-insensitively
(the source lowercases the content and additionally passes
`re.IGNORECASE`), which the matchers realise by lowercasing each
character at comparison time.  Each matcher reports the length of a match
starting at the current position, so the same matchers drive both
detection (`re.findall` non-empty) and censoring (`re.sub` with `***`).
The email pattern `\b[A-Za-z0-9._%+-]+@[A-Za-z0-9.-]+\.[A-Z|a-z]{2,}\b`
is matched structurally (local part, `@`, domain containing a dot
followed by a ≥2-character TLD run ending at a word boundary); the
earliest feasible dot is chosen where the regex's greedy engine would
choose the latest, which can only change the extent of a censored region,
never whether some match exists. -/

/-- `\w` of the `re` module: letters, digits, underscore. -/
def isWordChar (c : Char) : Bool := c.isAlphanum || c = '_'

/-- A `\b` word boundary holds against the neighbouring character
(`none` at the ends of the string). -/
def boundaryOk : Option Char → Bool
  | none => true
  | some c => !isWordChar c

/-- Case-insensitive prefix test: the lowercase pattern `p` starts the
text. -/
def ciPrefix : List Char → List Char → Bool
  | [], _ => true
  | _ :: _, [] => false
  | p :: ps, c :: cs => (c.toLower = p) && ciPrefix ps cs

/-- The profanity alternation of pattern 1:
`\b(fuck|shit|damn|bitch|asshole)\b`. -/
def profanityWords : List String :=
  ["fuck", "shit", "damn", "bitch", "asshole"]

/-- The spam alternation of pattern 2:
`(click here|buy now|limited time|act now)` (no word boundaries). -/
def spamPhrases : List String :=
  ["click here", "buy now", "limited time", "act now"]

/-- Match one `\b`-delimited word at the current position, returning the
matched length. -/
def wordAt (w : List Char) (prev : Option Char) (cs : List Char) :
    Option Nat :=
  if boundaryOk prev && ciPrefix w cs &&
      boundaryOk ((cs.drop w.length).head?) then
    some w.length
  else none

/-- Pattern 1 at the current position: first profanity word that
matches. -/
def profanityAt (prev : Option Char) (cs : List Char) : Option Nat :=
  profanityWords.findSome? (fun w => wordAt w.toList prev cs)

/-- Pattern 2 at the current position: first spam phrase that matches
(no boundary requirement). -/
def spamAt (_ : Option Char) (cs : List Char) : Option Nat :=
  spamPhrases.findSome? (fun p =>
    if ciPrefix p.toList cs then some p.toList.length else none)

/-- Consume exactly `n` digits, returning the rest. -/
def digitCount : Nat → List Char → Option (List Char)
  | 0, cs => some cs
  | _ + 1, [] => none
  | n + 1, c :: cs => if c.isDigit then digitCount n cs else none

/-- Pattern 3 at the current position: `\b\d{3}-\d{3}-\d{4}\b`
(length 12 when it matches). -/
def phoneAt (prev : Option Char) (cs : List Char) : Option Nat :=
  if boundaryOk prev then
    match digitCount 3 cs with
    | some ('-' :: r2) =>
        match digitCount 3 r2 with
        | some ('-' :: r4) =>
            match digitCount 4 r4 with
            | some r5 => if boundaryOk r5.head? then some 12 else none
            | none => none
        | _ => none
    | _ => none
  else none

/-- `[A-Za-z0-9._%+-]`, the email local-part class. -/
def isLocalChar (c : Char) : Bool :=
  c.isAlphanum || c = '.' || c = '_' || c = '%' || c = '+' || c = '-'

/-- `[A-Za-z0-9.-]`, the email domain class. -/
def isDomainChar (c : Char) : Bool := c.isAlphanum || c = '.' || c = '-'

/-- `[A-Z|a-z]`, the email TLD class (the source pattern literally
includes `|` inside the character class). -/
def isTldChar (c : Char) : Bool := c.isAlpha || c = '|'

/-- A TLD run of length ≥ 2 ending at a word boundary, returning its
length. -/
def tldLenAt (cs : List Char) : Option Nat :=
  let run := cs.takeWhile isTldChar
  if run.length ≥ 2 && boundaryOk ((cs.drop run.length).head?) then
    some run.length
  else none

/-- Scan a domain: at least one domain character, then a literal `.`
followed by a TLD; returns the number of characters consumed including
the dot and the TLD. -/
def domainDotTldLen : Bool → List Char → Option Nat
  | _, [] => none
  | consumed, c :: rest =>
      if c = '.' then
        match (if consumed then tldLenAt rest else none) with
        | some k => some (1 + k)
        | none => (domainDotTldLen true rest).map (· + 1)
      else if isDomainChar c then
        (domainDotTldLen true rest).map (· + 1)
      else none

/-- Pattern 4 at the current position: the email regex; returns the
matched length. -/
def emailAt (prev : Option Char) (cs : List Char) : Option Nat :=
  if boundaryOk prev then
    match cs with
    | [] => none
    | c :: _ =>
        if isWordChar c then
          let localRun := cs.takeWhile isLocalChar
          if localRun.isEmpty then none
          else
            match cs.drop localRun.length with
            | '@' :: r2 =>
                match domainDotTldLen false r2 with
                | some k => some (localRun.length + 1 + k)
                | none => none
            | _ => none
        else none
  else none

/-- Scan the whole text for a match of one pattern (`re.findall` is
non-empty). -/
def scanMatch (matchAt : Option Char → List Char → Option Nat) :
    Option Char → List Char → Bool
  | prev, [] => (matchAt prev []).isSome
  | prev, c :: rest =>
      (matchAt prev (c :: rest)).isSome || scanMatch matchAt (some c) rest

/-- Pattern 1 (`profanity`) matches somewhere in the content. -/
def profanity_matches (content : String) : Bool :=
  scanMatch profanityAt none content.toList

/-- Pattern 2 (`spam`) matches somewhere in the content. -/
def spam_matches (content : String) : Bool :=
  scanMatch spamAt none content.toList

/-- Pattern 3 (phone numbers, classified `personal_info`) matches
somewhere in the content. -/
def phone_matches (content : String) : Bool :=
  scanMatch phoneAt none content.toList

/-- Pattern 4 (email addresses, classified `personal_info`) matches
somewhere in the content. -/
def email_matches (content : String) : Bool :=
  scanMatch emailAt none content.toList

/-- One `re.sub(pattern, '***', text)` pass: each match is replaced by
`***` and scanning resumes after it. -/
def censorPass (matchAt : Option Char → List Char → Option Nat) :
    Option Char → List Char → List Char
  | _, [] => []
  | prev, c :: rest =>
      match matchAt prev (c :: rest) with
      | some n =>
          '*' :: '*' :: '*' ::
            censorPass matchAt (((c :: rest).take (max n 1)).getLast?)
              (rest.drop (max n 1 - 1))
      | none => c :: censorPass matchAt (some c) rest
termination_by _ l => l.length
decreasing_by
  · simp only [List.length_drop, List.length_cons]
    omega
  · simp only [List.length_cons]
    omega

/-- `ContentModerator._censor_content` (content_moderation.py lines
101–109): substitute `***` for every pattern match, one pattern after
another. -/
def censor_content (content : String) : String :=
  String.mk
    (censorPass emailAt none
      (censorPass phoneAt none
        (censorPass spamAt none
          (censorPass profanityAt none content.toList))))

/-- An issue row produced by `_check_patterns`. -/
structure ModerationIssue where
  issue_type : String
  severity : ℚ
deriving DecidableEq

/-- `ContentModerator.SEVERITY_SCORES` (content_moderation.py lines
26–32). -/
def SEVERITY_SCORES : List (String × ℚ) :=
  [("profanity", 7/10), ("spam", 5/10), ("personal_info", 8/10),
   ("harassment", 9/10), ("explicit", 95/100)]

/-- `SEVERITY_SCORES.get(issue_type, 0.5)`. -/
def severity_score (issue_type : String) : ℚ :=
  match SEVERITY_SCORES.find? (fun p => p.1 = issue_type) with
  | some p => p.2
  | none => 5/10

/-- `ContentModerator._check_patterns` (content_moderation.py lines
74–99): one issue per matching pattern, in pattern order; pattern 1 is
classified `profanity`, pattern 2 `spam`, patterns 3 and 4
`personal_info`. -/
def check_patterns (content : String) : List ModerationIssue :=
  (if profanity_matches content then
    [{ issue_type := "profanity", severity := severity_score "profanity" }]
  else []) ++
  (if spam_matches content then
    [{ issue_type := "spam", severity := severity_score "spam" }]
  else []) ++
  (if phone_matches content then
    [{ issue_type := "personal_info",
       severity := severity_score "personal_info" }]
  else []) ++
  (if email_matches content then
    [{ issue_type := "personal_info",
       severity := severity_score "personal_info" }]
  else [])

/-- The `max_severity` loop of `moderate_text`: maximum issue severity,
starting from 0.0. -/
def max_severity (content : String) : ℚ :=
  (check_patterns content).foldl (fun acc i => max acc i.severity) 0

/-- The result dict of `moderate_text`. -/
structure ModerationResult where
  is_appropriate : Bool
  confidence_score : ℚ
  issues_found : List ModerationIssue
  action_required : String
  filtered_content : String
deriving DecidableEq

/-- `ContentModerator.moderate_text` (content_moderation.py lines
34–72): compute the issues and their maximum severity, then pick the
action by the threshold ladder — ≥ 0.9 block and censor, ≥ 0.7 flag and
censor, ≥ 0.5 flag without censoring, otherwise the defaults (`none`,
appropriate, content unchanged).  The moderation-log side effect carries
no information used by any claim and is omitted. -/
def moderate_text (content : String) : ModerationResult :=
  if max_severity content ≥ 9/10 then
    { is_appropriate := false, confidence_score := max_severity content,
      issues_found := check_patterns content, action_required := "block",
      filtered_content := censor_content content }
  else if max_severity content ≥ 7/10 then
    { is_appropriate := false, confidence_score := max_severity content,
      issues_found := check_patterns content, action_required := "flag",
      filtered_content := censor_content content }
  else if max_severity content ≥ 5/10 then
    { is_appropriate := true, confidence_score := max_severity content,
      issues_found := check_patterns content, action_required := "flag",
      filtered_content := content }
  else
    { is_appropriate := true, confidence_score := max_severity content,
      issues_found := check_patterns content, action_required := "none",
      filtered_content := content }

/-! ### Message endpoints (views.py) and the encryption task (tasks.py) -/

/-- A `MessageReaction` row (models.py lines 502–522): the triple is
unique (`unique_together = ('message', 'user', 'emoji')`). -/
structure MessageReaction where
  message_id : Nat
  user_id : Nat
  emoji : String
deriving DecidableEq

/-- The database state the message endpoints operate on: the four tables
plus the messages' auto-increment id counter. -/
structure ChatStore where
  conversations : List Conversation := []
  participants : List ConversationParticipant := []
  messages : List Message := []
  reactions : List MessageReaction := []
  next_message_id : Nat := 0
deriving DecidableEq

/-- `Conversation.is_participant` (models.py lines 235–240): membership
by the two participant fields for direct conversations, by an ACTIVE
`ConversationParticipant` row for group/channel conversations. -/
def is_participant (s : ChatStore) (c : Conversation) (user : Nat) : Bool :=
  if c.conversation_type = ConversationType.direct then
    c.participant1 = some user || c.participant2 = some user
  else
    s.participants.any (fun p =>
      p.conversation_id = c.id && p.user_id = user && p.is_active)

/-- Python truthiness of an optional text field: `None` and `""` are
falsy. -/
def contentFalsy : Option String → Bool
  | none => true
  | some s => s = ""

/-- Python truthiness of an optional decimal field: `None` and `0` are
falsy. -/
def decimalFalsy : Option Int → Bool
  | none => true
  | some v => v = 0

/-- A Celery job enqueued with `.delay` by the send endpoint. -/
inductive PipelineJob
  | moderate_content_job (message_id : Nat) (content : String)
  | process_encryption_job (message_id : Nat)
  | send_webhook_job (url : String)
deriving DecidableEq

/-- `Message.clean` (models.py lines 408–424), given the message's
conversation: sender must be a participant; text requires content
(`not self.content`); image/file/voice/video require a file; location
requires latitude and longitude (`is None` tests). -/
def message_clean (s : ChatStore) (conv : Conversation) (m : Message) :
    Except String Unit :=
  if !(is_participant s conv m.sender_id) then
    Except.error "Sender must be a participant in the conversation."
  else if m.message_type = MessageType.text && contentFalsy m.content then
    Except.error "Text messages must have content."
  else if (m.message_type = MessageType.image ||
      m.message_type = MessageType.file ||
      m.message_type = MessageType.voice ||
      m.message_type = MessageType.video) && !m.has_file then
    Except.error "messages must have a file attachment."
  else if m.message_type = MessageType.location &&
      (m.latitude.isNone || m.longitude.isNone) then
    Except.error "Location messages must have latitude and longitude."
  else
    Except.ok ()

/-- `Message.save` (models.py lines 426–439): `clean` runs first and a
`ValidationError` aborts before anything is written; on success the row
is inserted and `conversation.update_last_message_time()` stamps the
conversation's `last_message_at`. -/
def message_save (s : ChatStore) (conv : Conversation) (m : Message)
    (now : Nat) : Except String ChatStore :=
  match message_clean s conv m with
  | Except.error e => Except.error e
  | Except.ok _ =>
      Except.ok
        { s with
          messages := s.messages ++ [m],
          conversations := s.conversations.map (fun c =>
            if c.id = conv.id then { c with last_message_at := now }
            else c) }

/-- The HTTP outcome of the send endpoint. -/
inductive SendResult
  | created (m : Message)
  | bad_request (detail : String)
  | forbidden (detail : String)
  | not_found (detail : String)
  | validation_error (detail : String)
deriving DecidableEq

/-- `SendMessageSerializer.validate` (serializers.py lines 217–244):
text requires a truthy `message`, the file types require a file, and
location requires truthy latitude/longitude. -/
def send_serializer_validate (message_type : MessageType)
    (message : Option String) (has_file : Bool)
    (latitude longitude : Option Int) : Option String :=
  if message_type = MessageType.text && contentFalsy message then
    some "Text message cannot be empty"
  else if (message_type = MessageType.image ||
      message_type = MessageType.file ||
      message_type = MessageType.voice ||
      message_type = MessageType.video) && !has_file then
    some "message requires a file"
  else if message_type = MessageType.location &&
      (decimalFalsy latitude || decimalFalsy longitude) then
    some "Location message requires latitude and longitude"
  else
    none

/-- `MessageViewSet.send` (views.py lines 374–447): serializer
validation, conversation lookup, participancy gate, reply lookup, then
`Message.objects.create` (which runs `Message.save`, so `clean` may
raise `ValidationError` — the view does not catch it) and finally the
`.delay` calls enqueue moderation (only for truthy content), encryption
and a webhook job.  Cache invalidation carries no state any claim
mentions and is omitted. -/
def message_viewset_send (s : ChatStore) (jobs : List PipelineJob)
    (request_user : Nat) (conversation_id : Nat)
    (message_type : MessageType) (message : Option String)
    (has_file : Bool) (latitude longitude : Option Int)
    (reply_to : Option Nat) (now : Nat) :
    SendResult × ChatStore × List PipelineJob :=
  match send_serializer_validate message_type message has_file latitude
      longitude with
  | some e => (SendResult.bad_request e, s, jobs)
  | none =>
      match s.conversations.find? (fun c => c.id = conversation_id) with
      | none => (SendResult.not_found "Conversation not found", s, jobs)
      | some conversation =>
          if !(is_participant s conversation request_user) then
            (SendResult.forbidden
              "You are not a participant in this conversation", s, jobs)
          else
            match (match reply_to with
                   | none => Except.ok (none : Option Nat)
                   | some rid =>
                       match s.messages.find? (fun m => m.id = rid) with
                       | some rm => Except.ok (some rm.id)
                       | none =>
                           Except.error "Reply message not found") with
            | Except.error e => (SendResult.not_found e, s, jobs)
            | Except.ok replyRef =>
                let m : Message :=
                  { id := s.next_message_id,
                    conversation_id := conversation.id,
                    sender_id := request_user,
                    message_type := message_type, content := message,
                    has_file := has_file, latitude := latitude,
                    longitude := longitude, reply_to := replyRef,
                    status := MessageStatus.sent }
                match message_save s conversation m now with
                | Except.error e =>
                    (SendResult.validation_error e, s, jobs)
                | Except.ok s2 =>
                    (SendResult.created m,
                     { s2 with
                       next_message_id := s2.next_message_id + 1 },
                     jobs ++
                       (if contentFalsy m.content then []
                        else
                          [PipelineJob.moderate_content_job m.id
                            (m.content.getD "")]) ++
                       [PipelineJob.process_encryption_job m.id,
                        PipelineJob.send_webhook_job
                          "https://your-webhook-url.com/messages"])

/-- The HTTP outcome of the reaction endpoints. -/
inductive ReactResult
  | created
  | no_content
  | bad_request (detail : String)
  | forbidden (detail : String)
  | not_found
deriving DecidableEq

/-- A (message, user, emoji) reaction row exists. -/
def reaction_exists (s : ChatStore) (mid uid : Nat) (emoji : String) :
    Bool :=
  s.reactions.any (fun r =>
    r.message_id = mid && r.user_id = uid && r.emoji = emoji)

/-- `MessageViewSet.get_object` through `get_queryset` (views.py lines
296–322): requires the `conversation_id` query parameter, an existing
conversation, the requester to be a participant, and the message to be a
non-deleted row of that conversation; otherwise the queryset is empty
and the detail route 404s.  Returns the message together with its
conversation foreign key. -/
def message_get_object (s : ChatStore) (request_user : Nat)
    (conversation_id : Option Nat) (pk : Nat) :
    Option (Message × Conversation) :=
  match conversation_id with
  | none => none
  | some cid =>
      match s.conversations.find? (fun c => c.id = cid) with
      | none => none
      | some conv =>
          if !(is_participant s conv request_user) then none
          else
            match s.messages.find? (fun m =>
                m.id = pk && m.conversation_id = conv.id &&
                !m.is_deleted) with
            | none => none
            | some m => some (m, conv)

/-- `MessageViewSet.react` (views.py lines 601–645): `get_object`, the
participancy check on the message's conversation, then
`MessageReaction.objects.create`; a duplicate (message, user, emoji)
violates `unique_together` and the raised `IntegrityError` is caught and
returned as a 400. -/
def message_viewset_react (s : ChatStore) (request_user : Nat)
    (conversation_id : Option Nat) (pk : Nat) (emoji : String) :
    ReactResult × ChatStore :=
  match message_get_object s request_user conversation_id pk with
  | none => (ReactResult.not_found, s)
  | some (message, conv) =>
      if !(is_participant s conv request_user) then
        (ReactResult.forbidden
          "You are not a participant in this conversation", s)
      else if reaction_exists s message.id request_user emoji then
        (ReactResult.bad_request
          "UNIQUE constraint failed: message, user, emoji", s)
      else
        (ReactResult.created,
         { s with
           reactions := s.reactions ++
             [{ message_id := message.id, user_id := request_user,
                emoji := emoji }] })

/-- `MessageViewSet.remove_reaction` (views.py lines 647–668):
`get_object`, require an emoji, then delete the requester's matching
reaction rows (no error if none exist). -/
def message_viewset_remove_reaction (s : ChatStore) (request_user : Nat)
    (conversation_id : Option Nat) (pk : Nat) (emoji : Option String) :
    ReactResult × ChatStore :=
  match message_get_object s request_user conversation_id pk with
  | none => (ReactResult.not_found, s)
  | some (message, _) =>
      match emoji with
      | none => (ReactResult.bad_request "Emoji is required", s)
      | some e =>
          (ReactResult.no_content,
           { s with
             reactions := s.reactions.filter (fun r =>
               !(r.message_id = message.id &&
                 r.user_id = request_user && r.emoji = e)) })

/-- `MessageViewSet.bulk_mark_read` (views.py lines 450–472): one bulk
`UPDATE` setting `status=READ` and `read_at=now` on every message whose
id is listed, whose conversation is in `get_user_conversations(request
.user)`, and whose sender is not the requester — unconditionally on the
message's current status.  Returns the store and the updated count. -/
def bulk_mark_read (s : ChatStore) (request_user : Nat)
    (message_ids : List Nat) (now : Nat) : ChatStore × Nat :=
  let user_convs :=
    get_user_conversations s.conversations s.participants request_user
  let hit := fun (m : Message) =>
    message_ids.contains m.id &&
    user_convs.any (fun c => c.id = m.conversation_id) &&
    !(m.sender_id = request_user)
  ({ s with
     messages := s.messages.map (fun m =>
       if hit m then
         { m with status := MessageStatus.read, read_at := some now }
       else m) },
   (s.messages.filter hit).length)

/-- The names `encryption.py` defines at module level.
`encrypt_message_content` is NOT among them: it is a static method of
the class `MessageEncryption`, so
`from .encryption import encrypt_message_content` raises ImportError. -/
def encryptionModuleExports : List String :=
  ["MessageEncryption", "UserKeyManager"]

/-- The `from .encryption import encrypt_message_content` statement at
the top of `process_message_encryption`'s body (outside its `try`
block). -/
def import_from_encryption (name : String) : Except String Unit :=
  if encryptionModuleExports.contains name then Except.ok ()
  else Except.error ("ImportError: cannot import name " ++ name)

/-- The value a run of the encryption task produces. -/
inductive EncryptionTaskResult
  | ok_result (tag : String)
  | error_result (message : String)
  | raised (exception : String)
deriving DecidableEq

/-- `process_message_encryption` (tasks.py lines 142–169).  The body
starts with `from .encryption import encrypt_message_content` OUTSIDE
the `try` block; `encryption.py` has no module-level name
`encrypt_message_content` (it is a method of `MessageEncryption`), so
every run raises ImportError before touching the message.  Were that
statement fixed, the guard `if not message.is_encrypted` would still raise
`AttributeError` — the `Message` model defines no `is_encrypted` or
`encrypted_content` field — which the `except Exception` clause turns
into an error-dict return.  Either way no message is ever modified. -/
def process_message_encryption (s : ChatStore) (message_id : Nat) :
    ChatStore × EncryptionTaskResult :=
  match import_from_encryption "encrypt_message_content" with
  | Except.error e => (s, EncryptionTaskResult.raised e)
  | Except.ok _ =>
      match s.messages.find? (fun m => m.id = message_id) with
      | none =>
          (s, EncryptionTaskResult.error_result "Message not found")
      | some _ =>
          (s, EncryptionTaskResult.error_result
            "AttributeError: Message object has no attribute is_encrypted")

/-- A concrete direct conversation between users 1 and 2. -/
def dmConv : Conversation :=
  { id := 7, conversation_type := ConversationType.direct,
    participant1 := some 1, participant2 := some 2 }

/-- A concrete text message from user 2 in `dmConv`. -/
def dmMessage : Message :=
  { id := 3, conversation_id := 7, sender_id := 2,
    message_type := MessageType.text, content := some "hi" }

/-- A concrete store holding `dmConv` and `dmMessage`. -/
def dmStore : ChatStore :=
  { conversations := [dmConv], messages := [dmMessage],
    next_message_id := 4 }

end ChatService

namespace ChatService

/-- **C1.** Message status only moves forward through
sent → delivered → read: `mark_as_read` on a sent or delivered message sets
status to read and stamps `read_at` (skipping delivered is allowed);
`mark_as_delivered` on a delivered, read or failed message is a no-op that
leaves the whole message unchanged; `mark_as_delivered` on a sent message
sets status to delivered and stamps `delivered_at`. -/
theorem message_status_forward_only (m : Message) (now : Nat) :
    ((m.status = MessageStatus.sent ∨ m.status = MessageStatus.delivered) →
      (mark_as_read now m).status = MessageStatus.read ∧
      (mark_as_read now m).read_at = some now) ∧
    ((m.status = MessageStatus.delivered ∨ m.status = MessageStatus.read ∨
        m.status = MessageStatus.failed) →
      mark_as_delivered now m = m) ∧
    (m.status = MessageStatus.sent →
      (mark_as_delivered now m).status = MessageStatus.delivered ∧
      (mark_as_delivered now m).delivered_at = some now) := by
  cases h : m.status <;>
    simp [mark_as_read, mark_as_delivered, h]

/-- Closed witness for C1: the transitions evaluated on concrete messages. -/
theorem message_status_forward_only_witness :
    (mark_as_read 5 { id := 1, conversation_id := 7, sender_id := 2 }).status
        = MessageStatus.read ∧
    (mark_as_read 5 { id := 1, conversation_id := 7, sender_id := 2 }).read_at
        = some 5 ∧
    mark_as_delivered 6
        { id := 1, conversation_id := 7, sender_id := 2,
          status := MessageStatus.read }
      = { id := 1, conversation_id := 7, sender_id := 2,
          status := MessageStatus.read } ∧
    (mark_as_delivered 6 { id := 1, conversation_id := 7, sender_id := 2 }).status
        = MessageStatus.delivered := by
  have h1 := message_status_forward_only
    { id := 1, conversation_id := 7, sender_id := 2 } 5
  have h2 := message_status_forward_only
    { id := 1, conversation_id := 7, sender_id := 2,
      status := MessageStatus.read } 6
  have h3 := message_status_forward_only
    { id := 1, conversation_id := 7, sender_id := 2 } 6
  exact ⟨(h1.1 (Or.inl rfl)).1, (h1.1 (Or.inl rfl)).2,
    h2.2.1 (Or.inr (Or.inl rfl)), (h3.2.2 rfl).1⟩

/-- `direct_get_or_create` on an ordered key returns an ordered
conversation and preserves the canonical-order invariant of the store. -/
lemma direct_get_or_create_ordered (s : ConvStore) (a b : Nat) (hab : a < b)
    (hord : ∀ c ∈ s.conversations, directOrdered c) :
    directOrdered (direct_get_or_create s a b).1 ∧
    ∀ c ∈ (direct_get_or_create s a b).2.2.conversations, directOrdered c := by
  cases hf : s.conversations.find? (isDirectBetween a b) with
  | some c =>
      simp only [direct_get_or_create, hf]
      exact ⟨hord c (List.mem_of_find?_eq_some hf), hord⟩
  | none =>
      simp only [direct_get_or_create, hf]
      constructor
      · exact fun _ => ⟨a, b, rfl, rfl, hab⟩
      · intro c hc
        rcases List.mem_append.mp hc with h | h
        · exact hord c h
        · simp only [List.mem_singleton] at h
          subst h
          exact fun _ => ⟨a, b, rfl, rfl, hab⟩

/-- The lookup predicate holds on any direct conversation carrying the
looked-up participant pair. -/
lemma isDirectBetween_eq_true {a b : Nat} {c : Conversation}
    (ht : c.conversation_type = ConversationType.direct)
    (h1 : c.participant1 = some a) (h2 : c.participant2 = some b) :
    isDirectBetween a b c = true := by
  simp [isDirectBetween, ht, h1, h2]

/-- `direct_get_or_create` preserves uniqueness of direct conversations
per participant pair: it only inserts when the lookup found nothing. -/
lemma direct_get_or_create_unique (s : ConvStore) (a b : Nat)
    (huniq : directUnique s) :
    directUnique (direct_get_or_create s a b).2.2 := by
  cases hf : s.conversations.find? (isDirectBetween a b) with
  | some c =>
      simp only [direct_get_or_create, hf]
      exact huniq
  | none =>
      simp only [direct_get_or_create, hf]
      intro c hc d hd hcd hdd h1 h2
      have hnone := List.find?_eq_none.mp hf
      rcases List.mem_append.mp hc with hcs | hcn <;>
        rcases List.mem_append.mp hd with hds | hdn
      · exact huniq c hcs d hds hcd hdd h1 h2
      · simp only [List.mem_singleton] at hdn
        subst hdn
        exact absurd (isDirectBetween_eq_true hcd h1 h2) (hnone c hcs)
      · simp only [List.mem_singleton] at hcn
        subst hcn
        exact absurd (isDirectBetween_eq_true hdd h1.symm h2.symm)
          (hnone d hds)
      · simp only [List.mem_singleton] at hcn hdn
        rw [hcn, hdn]

/-- **C2.** For all users A ≠ B, `get_or_create_direct_conversation` is
symmetric in its two arguments (both orders return the same conversation,
`created` flag and store, so at most one direct conversation exists per
unordered pair), and it keeps the invariant that every stored direct
conversation has `participant1.id < participant2.id` — the returned
conversation satisfies it as well. -/
theorem direct_conversation_canonical (s : ConvStore) (a b : Nat)
    (hab : a ≠ b) :
    get_or_create_direct_conversation s a b =
      get_or_create_direct_conversation s b a ∧
    ((∀ c ∈ s.conversations, directOrdered c) →
      ∀ conv created s',
        get_or_create_direct_conversation s a b =
          Except.ok (conv, created, s') →
        directOrdered conv ∧ ∀ c ∈ s'.conversations, directOrdered c) ∧
    (directUnique s →
      ∀ conv created s',
        get_or_create_direct_conversation s a b =
          Except.ok (conv, created, s') →
        directUnique s') := by
  rcases Nat.lt_or_gt_of_ne hab with hlt | hgt
  · have h1 : ¬ a > b := by omega
    refine ⟨?_, ?_, ?_⟩
    · simp only [get_or_create_direct_conversation, if_neg hab,
        if_neg (Ne.symm hab), if_neg h1, if_pos hlt]
    · intro hord conv created s' heq
      simp only [get_or_create_direct_conversation, if_neg hab, if_neg h1,
        Except.ok.injEq] at heq
      have h := direct_get_or_create_ordered s a b hlt hord
      rw [heq] at h
      exact h
    · intro huniq conv created s' heq
      simp only [get_or_create_direct_conversation, if_neg hab, if_neg h1,
        Except.ok.injEq] at heq
      have h := direct_get_or_create_unique s a b huniq
      rw [heq] at h
      exact h
  · have h1 : ¬ b > a := by omega
    refine ⟨?_, ?_, ?_⟩
    · simp only [get_or_create_direct_conversation, if_neg hab,
        if_neg (Ne.symm hab), if_neg h1, if_pos hgt]
    · intro hord conv created s' heq
      simp only [get_or_create_direct_conversation, if_neg hab, if_pos hgt,
        Except.ok.injEq] at heq
      have h := direct_get_or_create_ordered s b a hgt hord
      rw [heq] at h
      exact h
    · intro huniq conv created s' heq
      simp only [get_or_create_direct_conversation, if_neg hab, if_pos hgt,
        Except.ok.injEq] at heq
      have h := direct_get_or_create_unique s b a huniq
      rw [heq] at h
      exact h

/-- Closed witness for C2: on the empty store, `(2,1)` and `(1,2)` create
the same conversation, stored with `participant1 = 1 < 2 = participant2`. -/
theorem direct_conversation_canonical_witness :
    get_or_create_direct_conversation { conversations := [], next_id := 0 } 2 1 =
      get_or_create_direct_conversation { conversations := [], next_id := 0 } 1 2 ∧
    directOrdered
      { id := 0, conversation_type := ConversationType.direct,
        participant1 := some 1, participant2 := some 2 } := by
  have h := direct_conversation_canonical
    { conversations := [], next_id := 0 } 2 1 (by decide)
  refine ⟨h.1, ?_⟩
  have h2 := h.2.1 (by intro c hc; simp at hc)
    { id := 0, conversation_type := ConversationType.direct,
      participant1 := some 1, participant2 := some 2 }
    true
    { conversations :=
        [{ id := 0, conversation_type := ConversationType.direct,
           participant1 := some 1, participant2 := some 2 }],
      next_id := 1 }
    rfl
  exact h2.1

/-- `find?` over a map that rewrites exactly the matching elements, with a
rewrite `g` that preserves the predicate. -/
lemma find?_map_update {α : Type} (p : α → Bool) (g : α → α)
    (hg : ∀ u, p (g u) = p u) (l : List α) :
    (l.map (fun u => if p u then g u else u)).find? p = (l.find? p).map g := by
  induction l with
  | nil => rfl
  | cons a l ih =>
      cases hpa : p a with
      | true =>
          rw [List.map_cons, if_pos hpa,
            List.find?_cons_of_pos _ (by rw [hg, hpa]),
            List.find?_cons_of_pos _ hpa]
          rfl
      | false =>
          rw [List.map_cons, if_neg (by simp [hpa]),
            List.find?_cons_of_neg _ (by simp [hpa]),
            List.find?_cons_of_neg _ (by simp [hpa]), ih]

/-- `find?` for a predicate `q` is untouched by a map that fixes every
`q`-matching element and preserves `q` everywhere. -/
lemma find?_map_other {α : Type} (q : α → Bool) (f : α → α)
    (hstat : ∀ u, q (f u) = q u) (hfix : ∀ u, q u = true → f u = u)
    (l : List α) :
    (l.map f).find? q = l.find? q := by
  induction l with
  | nil => rfl
  | cons a l ih =>
      cases hqa : q a with
      | true =>
          rw [List.map_cons, List.find?_cons_of_pos _ (by rw [hstat, hqa]),
            List.find?_cons_of_pos _ hqa, hfix a hqa]
      | false =>
          rw [List.map_cons,
            List.find?_cons_of_neg _ (by simp [hstat, hqa]),
            List.find?_cons_of_neg _ (by simp [hqa]), ih]

/-- `find?` across appending a single element. -/
lemma find?_append_single {α : Type} (p : α → Bool) (l : List α) (x : α) :
    (l ++ [x]).find? p =
      match l.find? p with
      | some a => some a
      | none => if p x then some x else none := by
  induction l with
  | nil =>
      cases hpx : p x with
      | true =>
          rw [List.nil_append, List.find?_cons_of_pos _ hpx]
          simp [hpx]
      | false =>
          rw [List.nil_append, List.find?_cons_of_neg _ (by simp [hpx])]
          simp [hpx]
  | cons a l ih =>
      cases hpa : p a with
      | true =>
          rw [List.cons_append, List.find?_cons_of_pos _ hpa,
            List.find?_cons_of_pos _ hpa]
      | false =>
          rw [List.cons_append, List.find?_cons_of_neg _ (by simp [hpa]),
            List.find?_cons_of_neg _ (by simp [hpa]), ih]

/-- Incrementing the matching trackers' counters commutes with looking the
tracker up. -/
lemma find?_trackers_increment (user : Nat) (action : String) (ws : Nat)
    (l : List RateLimitTracker) :
    (l.map (fun u =>
        if trackerKeyMatches user action ws u then
          { u with count := u.count + 1 }
        else u)).find? (trackerKeyMatches user action ws) =
      (l.find? (trackerKeyMatches user action ws)).map
        (fun u => { u with count := u.count + 1 }) :=
  find?_map_update (trackerKeyMatches user action ws)
    (fun u => { u with count := u.count + 1 }) (fun _ => rfl) l

/-- Incrementing the counters of one minute bucket leaves the lookup for
any other bucket unchanged. -/
lemma find?_trackers_increment_other (user : Nat) (action : String)
    (ws ws' : Nat) (hne : ws' ≠ ws) (l : List RateLimitTracker) :
    (l.map (fun u =>
        if trackerKeyMatches user action ws u then
          { u with count := u.count + 1 }
        else u)).find? (trackerKeyMatches user action ws') =
      l.find? (trackerKeyMatches user action ws') := by
  apply find?_map_other
  · intro u
    by_cases hc : trackerKeyMatches user action ws u = true
    · rw [if_pos hc]
      rfl
    · rw [if_neg hc]
  · intro u hq
    have hfalse : ¬ (trackerKeyMatches user action ws u = true) := by
      intro hcontra
      simp only [trackerKeyMatches, Bool.and_eq_true, decide_eq_true_eq]
        at hq hcontra
      omega
    exact if_neg hfalse

/-- Behaviour of one `check_rate_limit` call in terms of bucket counters:
it allows exactly when the current bucket is below the limit, increments
only allowed calls, and never touches any other bucket of the user. -/
lemma check_rate_limit_spec (s : RateState) (user : Nat) (action : String)
    (limit now : Nat) :
    ((check_rate_limit s user action limit now).1 = true ↔
      bucket_count s user action (minuteWindowStart now) < limit) ∧
    bucket_count (check_rate_limit s user action limit now).2 user action
        (minuteWindowStart now) =
      (if bucket_count s user action (minuteWindowStart now) < limit then
        bucket_count s user action (minuteWindowStart now) + 1
      else
        bucket_count s user action (minuteWindowStart now)) ∧
    ∀ ws', ws' ≠ minuteWindowStart now →
      bucket_count (check_rate_limit s user action limit now).2 user action
          ws' =
        bucket_count s user action ws' := by
  cases hf : s.trackers.find?
      (trackerKeyMatches user action (minuteWindowStart now)) with
  | some t =>
      have hbc : bucket_count s user action (minuteWindowStart now) =
          t.count := by
        simp [bucket_count, hf]
      by_cases hlim : t.count ≥ limit
      · have hcrl : check_rate_limit s user action limit now = (false, s) := by
          simp [check_rate_limit, hf, hlim]
        rw [hcrl, hbc]
        refine ⟨by simp; omega, ?_, fun _ _ => rfl⟩
        rw [if_neg (by omega)]
      · have hcrl : check_rate_limit s user action limit now =
            (true,
              { trackers := s.trackers.map (fun u =>
                  if trackerKeyMatches user action (minuteWindowStart now) u
                  then { u with count := u.count + 1 }
                  else u) }) := by
          simp [check_rate_limit, hf, hlim]
        rw [hcrl, hbc]
        refine ⟨by simp; omega, ?_, ?_⟩
        · rw [if_pos (by omega)]
          show bucket_count _ user action (minuteWindowStart now) = t.count + 1
          simp only [bucket_count, find?_trackers_increment, hf,
            Option.map_some']
        · intro ws' hws'
          show bucket_count _ user action ws' = bucket_count s user action ws'
          simp only [bucket_count,
            find?_trackers_increment_other user action _ ws' hws' s.trackers]
  | none =>
      have hbc : bucket_count s user action (minuteWindowStart now) = 0 := by
        simp [bucket_count, hf]
      have hkey : trackerKeyMatches user action (minuteWindowStart now)
          { user_id := user, action_type := action,
            window_start := minuteWindowStart now, count := 0 } = true := by
        simp [trackerKeyMatches]
      by_cases hlim : (0 : Nat) ≥ limit
      · have hcrl : check_rate_limit s user action limit now =
            (false,
              { trackers := s.trackers ++
                  [{ user_id := user, action_type := action,
                     window_start := minuteWindowStart now, count := 0 }] }) := by
          simp [check_rate_limit, hf, hlim]
        rw [hcrl, hbc]
        refine ⟨by simp; omega, ?_, ?_⟩
        · rw [if_neg (by omega)]
          show bucket_count _ user action (minuteWindowStart now) = 0
          simp only [bucket_count, find?_append_single, hf, hkey, if_true]
        · intro ws' hws'
          have hx : trackerKeyMatches user action ws'
              { user_id := user, action_type := action,
                window_start := minuteWindowStart now, count := 0 } = false := by
            simp only [trackerKeyMatches]
            simp only [Bool.and_eq_false_imp, Bool.and_eq_true,
              decide_eq_true_eq, decide_eq_false_iff_not, and_imp]
            intro _ _
            exact fun h => hws' h.symm
          show bucket_count _ user action ws' = bucket_count s user action ws'
          simp only [bucket_count, find?_append_single, hx,
            Bool.false_eq_true, if_false]
          cases s.trackers.find? (trackerKeyMatches user action ws') <;> rfl
      · have hkey1 : trackerKeyMatches user action (minuteWindowStart now)
            { user_id := user, action_type := action,
              window_start := minuteWindowStart now, count := 1 } = true := by
          simp [trackerKeyMatches]
        have hcrl : check_rate_limit s user action limit now =
            (true,
              { trackers := s.trackers ++
                  [{ user_id := user, action_type := action,
                     window_start := minuteWindowStart now, count := 1 }] }) := by
          simp [check_rate_limit, hf, hlim]
        rw [hcrl, hbc]
        refine ⟨by simp; omega, ?_, ?_⟩
        · rw [if_pos (by omega)]
          show bucket_count _ user action (minuteWindowStart now) = 0 + 1
          simp only [bucket_count, find?_append_single, hf, hkey1, if_true]
        · intro ws' hws'
          have hx : trackerKeyMatches user action ws'
              { user_id := user, action_type := action,
                window_start := minuteWindowStart now, count := 1 } = false := by
            simp only [trackerKeyMatches]
            simp only [Bool.and_eq_false_imp, Bool.and_eq_true,
              decide_eq_true_eq, decide_eq_false_iff_not, and_imp]
            intro _ _
            exact fun h => hws' h.symm
          show bucket_count _ user action ws' = bucket_count s user action ws'
          simp only [bucket_count, find?_append_single, hx,
            Bool.false_eq_true, if_false]
          cases s.trackers.find? (trackerKeyMatches user action ws') <;> rfl

/-- **C3 (counterexample).** With a limit of 1 per minute, the second call
in the same minute bucket is rejected, and the rejected call does NOT
increment the counter: it stays at 1, where the claim demands 2. -/
theorem rate_limit_rejected_no_increment :
    (check_rate_limit
        (check_rate_limit { trackers := [] } 1 "message" 1 0).2
        1 "message" 1 0).1 = false ∧
    bucket_count
        (check_rate_limit
          (check_rate_limit { trackers := [] } 1 "message" 1 0).2
          1 "message" 1 0).2 1 "message" 0 = 1 := by
  exact ⟨rfl, rfl⟩

/-- Successive same-bucket calls below the limit each increment the bucket
by one and leave every other bucket untouched. -/
lemma iterate_calls_count (user : Nat) (action : String) (limit now : Nat)
    (k : Nat) :
    ∀ s : RateState,
      bucket_count s user action (minuteWindowStart now) + k ≤ limit →
      bucket_count (iterate_calls user action limit now k s) user action
          (minuteWindowStart now) =
        bucket_count s user action (minuteWindowStart now) + k ∧
      ∀ ws', ws' ≠ minuteWindowStart now →
        bucket_count (iterate_calls user action limit now k s) user action
            ws' =
          bucket_count s user action ws' := by
  induction k with
  | zero =>
      intro s _
      exact ⟨rfl, fun _ _ => rfl⟩
  | succ n ih =>
      intro s h
      have hspec := check_rate_limit_spec s user action limit now
      have hlt : bucket_count s user action (minuteWindowStart now) <
          limit := by omega
      have hcount := hspec.2.1
      rw [if_pos hlt] at hcount
      have ih2 := ih (check_rate_limit s user action limit now).2
        (by rw [hcount]; omega)
      have hstep : iterate_calls user action limit now (n + 1) s =
          iterate_calls user action limit now n
            (check_rate_limit s user action limit now).2 := rfl
      constructor
      · rw [hstep, ih2.1, hcount]
        omega
      · intro ws' hws'
        rw [hstep, ih2.2 ws' hws', hspec.2.2 ws' hws']

/-- **C3 (amended).** `check_rate_limit` allows a call exactly when the
(user, action, minute-bucket) counter is still below the per-minute limit
N; an allowed call increments the counter and a rejected call leaves it
unchanged (the rejection happens before the increment); consequently,
starting from a clean bucket, the (N+1)-th call in one minute bucket is
rejected while a call in the next minute bucket succeeds. -/
theorem rate_limit_check_and_consume (s : RateState) (user : Nat)
    (action : String) (limit now : Nat) :
    ((check_rate_limit s user action limit now).1 = true ↔
      bucket_count s user action (minuteWindowStart now) < limit) ∧
    bucket_count (check_rate_limit s user action limit now).2 user action
        (minuteWindowStart now) =
      (if bucket_count s user action (minuteWindowStart now) < limit then
        bucket_count s user action (minuteWindowStart now) + 1
      else
        bucket_count s user action (minuteWindowStart now)) ∧
    (0 < limit →
      bucket_count s user action (minuteWindowStart now) = 0 →
      bucket_count s user action (minuteWindowStart (now + 60)) = 0 →
      (check_rate_limit (iterate_calls user action limit now limit s) user
          action limit now).1 = false ∧
      (check_rate_limit (iterate_calls user action limit now limit s) user
          action limit (now + 60)).1 = true) := by
  have hspec := check_rate_limit_spec s user action limit now
  refine ⟨hspec.1, hspec.2.1, ?_⟩
  intro hpos h0 h60
  have hne : minuteWindowStart (now + 60) ≠ minuteWindowStart now := by
    simp only [minuteWindowStart]
    omega
  have hit := iterate_calls_count user action limit now limit s (by omega)
  have hfull : bucket_count (iterate_calls user action limit now limit s)
      user action (minuteWindowStart now) = limit := by
    rw [hit.1, h0]
    omega
  constructor
  · rcases Bool.eq_false_or_eq_true
        ((check_rate_limit (iterate_calls user action limit now limit s)
          user action limit now).1) with hb | hb
    · exfalso
      have := (check_rate_limit_spec
        (iterate_calls user action limit now limit s) user action limit
          now).1.mp hb
      rw [hfull] at this
      omega
    · exact hb
  · refine ((check_rate_limit_spec
      (iterate_calls user action limit now limit s) user action limit
        (now + 60)).1).mpr ?_
    rw [hit.2 _ hne, h60]
    omega

/-- Closed witness for C3 (amended): with a limit of 2 per minute, the
third call at second 30 is rejected and a call at second 90 (the next
minute) succeeds. -/
theorem rate_limit_check_and_consume_witness :
    (check_rate_limit (iterate_calls 1 "message" 2 30 2 { trackers := [] })
        1 "message" 2 30).1 = false ∧
    (check_rate_limit (iterate_calls 1 "message" 2 30 2 { trackers := [] })
        1 "message" 2 (30 + 60)).1 = true := by
  have h := rate_limit_check_and_consume { trackers := [] } 1 "message" 2 30
  exact h.2.2 (by omega) rfl rfl

/-- **C4 (counterexample).** User 5 has left the group conversation
`teamConv` — their membership row has `is_active = false` and `left_at`
set — yet `get_user_conversations` still returns the conversation: the
group branch joins on `participants__user=user` with no
`participants__is_active` condition. -/
theorem get_user_conversations_returns_left_conversation :
    leftMembershipRow.is_active = false ∧
    get_user_conversations [teamConv] [leftMembershipRow] 5 = [teamConv] := by
  refine ⟨rfl, ?_⟩
  rw [get_user_conversations]
  have hfil : [teamConv].filter (fun c =>
      directBranchFilter 5 c || groupBranchFilter [leftMembershipRow] 5 c) =
      [teamConv] := rfl
  rw [hfil, List.mergeSort_singleton]

/-- **C4 (amended).** `get_user_conversations user` returns exactly the
union of (a) active direct conversations in which the user is
`participant1` or `participant2` and (b) active group/channel
conversations in which the user has ANY membership row — active or not,
so a conversation the user has left is still returned — ordered by
`last_message_at` descending. -/
theorem get_user_conversations_spec (convs : List Conversation)
    (parts : List ConversationParticipant) (user : Nat) :
    (∀ c, c ∈ get_user_conversations convs parts user ↔
      (c ∈ convs ∧ c.is_active = true ∧
        ((c.conversation_type = ConversationType.direct ∧
           (c.participant1 = some user ∨ c.participant2 = some user)) ∨
         ((c.conversation_type = ConversationType.group ∨
            c.conversation_type = ConversationType.channel) ∧
          ∃ p ∈ parts, p.conversation_id = c.id ∧ p.user_id = user)))) ∧
    List.Sorted (fun c d => d.last_message_at ≤ c.last_message_at)
      (get_user_conversations convs parts user) := by
  constructor
  · intro c
    rw [get_user_conversations, List.mem_mergeSort, List.mem_filter]
    simp only [directBranchFilter, groupBranchFilter, Bool.or_eq_true,
      Bool.and_eq_true, decide_eq_true_eq, List.any_eq_true]
    tauto
  · have h : List.Pairwise
        (fun c d : Conversation =>
          decide (d.last_message_at ≤ c.last_message_at) = true)
        ((convs.filter (fun c =>
            directBranchFilter user c ||
            groupBranchFilter parts user c)).mergeSort
          (fun c d => decide (d.last_message_at ≤ c.last_message_at))) :=
      List.sorted_mergeSort
        (by intro a b c h1 h2; simp only [decide_eq_true_eq] at *; omega)
        (by intro a b; simp only [Bool.or_eq_true, decide_eq_true_eq]; omega)
        _
    exact h.imp (by simp only [decide_eq_true_eq]; exact fun h => h)

/-- Closed witness for C4 (amended): a concrete active membership row
makes the group conversation appear in the user's list. -/
theorem get_user_conversations_spec_witness :
    teamConv ∈ get_user_conversations [teamConv]
      [{ conversation_id := 1, user_id := 5 }] 5 := by
  have h := (get_user_conversations_spec [teamConv]
    [{ conversation_id := 1, user_id := 5 }] 5).1 teamConv
  refine h.mpr ⟨by simp, rfl, Or.inr ⟨Or.inl rfl, ?_⟩⟩
  exact ⟨{ conversation_id := 1, user_id := 5 }, by simp, rfl, rfl⟩

/-- **C5 (counterexample).** An endpoint that answers 204 — a 2xx
status — does NOT get its delivery marked delivered: `deliver_webhook`
tests `response.status_code == 200` exactly, so the record stays
undelivered, the failure counter is incremented, and the body raises to
trigger a retry. -/
theorem webhook_204_not_delivered :
    ((deliver_webhook_body "message.sent" 100 (HttpResult.status 204)
        hookEndpoint []).2.1.map (fun d => d.is_delivered)) = [false] ∧
    (deliver_webhook_body "message.sent" 100 (HttpResult.status 204)
        hookEndpoint []).1.total_failed = 1 ∧
    (deliver_webhook_body "message.sent" 100 (HttpResult.status 204)
        hookEndpoint []).2.2 = true :=
  ⟨rfl, rfl, rfl⟩

/-- **C5 (amended).** A webhook delivery record is marked delivered
exactly when the endpoint responds with status exactly 200 (not any 2xx);
on a non-200 response the endpoint's failure counter is incremented, the
record stays undelivered with `next_retry_at` set, and the body raises so
the task retries with exponentially growing delay `60 × 2^attempt` up to
`max_retries = 3`; on a transport failure the already-created record
stays undelivered and the task retries likewise, but the failure counter
is NOT incremented (the exception skips the endpoint update); an endpoint
that returns non-200 three times and then 200 ends with a delivery record
marked delivered with `delivery_attempts = 1 ≤ 3` after delays
[60, 120, 240]. -/
theorem deliver_webhook_spec :
    (∀ et now code ep ds,
      ∃ d : WebhookDelivery,
        deliver_webhook_body et now (HttpResult.status code) ep ds =
          ((if code = 200 then
              { ep with
                  total_sent := ep.total_sent + 1,
                  last_sent_at := some now }
            else
              { ep with total_failed := ep.total_failed + 1 }),
           ds ++ [d], decide (¬ code = 200)) ∧
        d.is_delivered = decide (code = 200) ∧
        d.response_status = some code ∧
        d.delivery_attempts = 1) ∧
    (∀ et now ep ds,
      deliver_webhook_body et now HttpResult.transportError ep ds =
        (ep,
         ds ++
           [{ endpoint_id := ep.id, event_type := et,
              delivery_attempts := 1 }],
         true)) ∧
    ((deliver_webhook_run "message.sent" 3
        [(0, HttpResult.status 500), (60, HttpResult.status 500),
         (180, HttpResult.status 500), (420, HttpResult.status 200)]
        0 hookEndpoint []).2.2.1 = TaskOutcome.success ∧
      (deliver_webhook_run "message.sent" 3
        [(0, HttpResult.status 500), (60, HttpResult.status 500),
         (180, HttpResult.status 500), (420, HttpResult.status 200)]
        0 hookEndpoint []).2.2.2 = [60, 120, 240] ∧
      (deliver_webhook_run "message.sent" 3
        [(0, HttpResult.status 500), (60, HttpResult.status 500),
         (180, HttpResult.status 500), (420, HttpResult.status 200)]
        0 hookEndpoint []).1.total_failed = 3 ∧
      (deliver_webhook_run "message.sent" 3
        [(0, HttpResult.status 500), (60, HttpResult.status 500),
         (180, HttpResult.status 500), (420, HttpResult.status 200)]
        0 hookEndpoint []).1.total_sent = 1 ∧
      (deliver_webhook_run "message.sent" 3
        [(0, HttpResult.status 500), (60, HttpResult.status 500),
         (180, HttpResult.status 500), (420, HttpResult.status 200)]
        0 hookEndpoint []).2.1.map
          (fun d => (d.is_delivered, d.delivery_attempts)) =
        [(false, 1), (false, 1), (false, 1), (true, 1)]) := by
  refine ⟨?_, fun _ _ _ _ => rfl, rfl, rfl, rfl, rfl, rfl⟩
  intro et now code ep ds
  by_cases hc : code = 200
  · subst hc
    exact ⟨{ endpoint_id := ep.id,
             event_type := et,
             response_status := some 200,
             delivery_attempts := 1,
             is_delivered := true },
      by simp [deliver_webhook_body], rfl, rfl, rfl⟩
  · refine ⟨{ endpoint_id := ep.id,
              event_type := et,
              response_status := some code,
              delivery_attempts := 1,
              next_retry_at := some (now + 300 * 1) },
      by simp [deliver_webhook_body, hc], ?_, rfl, rfl⟩
    simp [hc]

/-- Membership in a one-element `if` list forces the element. -/
lemma mem_if_singleton {α : Type} (c : Prop) [Decidable c] (x i : α)
    (h : i ∈ (if c then [x] else [])) : i = x := by
  split_ifs at h <;> simp_all

/-- Every issue produced by `_check_patterns` carries one of the three
reachable severities: 0.7 (profanity), 0.5 (spam), 0.8 (personal
info). -/
lemma check_patterns_severity (content : String) :
    ∀ i ∈ check_patterns content,
      i.severity = 7/10 ∨ i.severity = 5/10 ∨ i.severity = 8/10 := by
  intro i hi
  rcases List.mem_append.mp hi with h | h4
  · rcases List.mem_append.mp h with h | h3
    · rcases List.mem_append.mp h with h1 | h2
      · have := mem_if_singleton _ _ i h1
        subst this
        exact Or.inl rfl
      · have := mem_if_singleton _ _ i h2
        subst this
        exact Or.inr (Or.inl rfl)
    · have := mem_if_singleton _ _ i h3
      subst this
      exact Or.inr (Or.inr rfl)
  · have := mem_if_singleton _ _ i h4
    subst this
    exact Or.inr (Or.inr rfl)

/-- The severity fold is bounded above by any bound on the accumulator
and the issues. -/
lemma foldl_max_le_of (l : List ModerationIssue) (B : ℚ) :
    ∀ acc, acc ≤ B → (∀ i ∈ l, i.severity ≤ B) →
      l.foldl (fun a i => max a i.severity) acc ≤ B := by
  induction l with
  | nil => intro acc h _; exact h
  | cons x l ih =>
      intro acc hacc hall
      simp only [List.foldl_cons]
      exact ih _ (max_le hacc (hall x (by simp)))
        (fun i hi => hall i (by simp [hi]))

/-- The severity fold dominates its accumulator. -/
lemma le_foldl_max_acc (l : List ModerationIssue) :
    ∀ acc : ℚ, acc ≤ l.foldl (fun a i => max a i.severity) acc := by
  induction l with
  | nil => intro acc; exact le_refl acc
  | cons x l ih =>
      intro acc
      simp only [List.foldl_cons]
      exact le_trans (le_max_left _ _) (ih _)

/-- The severity fold dominates every member's severity. -/
lemma mem_le_foldl_max (l : List ModerationIssue) (i : ModerationIssue)
    (hi : i ∈ l) :
    ∀ acc : ℚ, i.severity ≤ l.foldl (fun a i => max a i.severity) acc := by
  induction l with
  | nil => exact absurd hi (List.not_mem_nil i)
  | cons x l ih =>
      intro acc
      rcases List.mem_cons.mp hi with h | h
      · subst h
        simp only [List.foldl_cons]
        exact le_trans (le_max_right _ _) (le_foldl_max_acc l _)
      · simp only [List.foldl_cons]
        exact ih h _

/-- A profanity match contributes severity 0.7 to the maximum. -/
lemma profanity_le_max_severity (content : String)
    (hp : profanity_matches content = true) :
    7/10 ≤ max_severity content := by
  have hm : ({ issue_type := "profanity",
               severity := severity_score "profanity" } : ModerationIssue) ∈
      check_patterns content := by
    rw [check_patterns, hp]
    simp
  have h := mem_le_foldl_max (check_patterns content) _ hm 0
  exact le_trans (le_of_eq (by rfl)) h

/-- **C6.** `moderate_text` produces a severity score in [0, 1] (the
score is the maximum matched severity) and chooses the action by the
threshold ladder: ≥ 0.9 block with the content censored, between 0.7 and
0.9 flag, between 0.5 and 0.7 flag without censoring, below 0.5 approved
(`action = none`, content appropriate, content unchanged).  Content with
a profanity match scores ≥ 0.7 and is flagged or blocked; content
matching none of the configured patterns is approved with score 0. -/
theorem moderate_text_spec (content : String) :
    (0 ≤ (moderate_text content).confidence_score ∧
      (moderate_text content).confidence_score ≤ 1) ∧
    (moderate_text content).confidence_score = max_severity content ∧
    (max_severity content ≥ 9/10 →
      (moderate_text content).action_required = "block" ∧
      (moderate_text content).filtered_content = censor_content content) ∧
    (7/10 ≤ max_severity content ∧ max_severity content < 9/10 →
      (moderate_text content).action_required = "flag") ∧
    (5/10 ≤ max_severity content ∧ max_severity content < 7/10 →
      (moderate_text content).action_required = "flag" ∧
      (moderate_text content).filtered_content = content) ∧
    (max_severity content < 5/10 →
      (moderate_text content).action_required = "none" ∧
      (moderate_text content).is_appropriate = true ∧
      (moderate_text content).filtered_content = content) ∧
    (profanity_matches content = true →
      7/10 ≤ (moderate_text content).confidence_score ∧
      ((moderate_text content).action_required = "flag" ∨
        (moderate_text content).action_required = "block")) ∧
    (profanity_matches content = false → spam_matches content = false →
      phone_matches content = false → email_matches content = false →
      (moderate_text content).action_required = "none" ∧
      (moderate_text content).is_appropriate = true ∧
      (moderate_text content).confidence_score = 0) := by
  have hconf : (moderate_text content).confidence_score =
      max_severity content := by
    rw [moderate_text]
    split_ifs <;> rfl
  have h01 : 0 ≤ max_severity content ∧ max_severity content ≤ 1 := by
    constructor
    · exact le_foldl_max_acc (check_patterns content) 0
    · refine foldl_max_le_of (check_patterns content) 1 0 (by norm_num) ?_
      intro i hi
      rcases check_patterns_severity content i hi with h | h | h <;>
        rw [h] <;> norm_num
  refine ⟨⟨hconf ▸ h01.1, hconf ▸ h01.2⟩, hconf, ?_, ?_, ?_, ?_, ?_, ?_⟩
  · intro h9
    rw [moderate_text, if_pos h9]
    exact ⟨rfl, rfl⟩
  · rintro ⟨h7, h9⟩
    rw [moderate_text, if_neg (by linarith), if_pos h7]
  · rintro ⟨h5, h7⟩
    rw [moderate_text, if_neg (by linarith), if_neg (by linarith),
      if_pos h5]
    exact ⟨rfl, rfl⟩
  · intro h5
    rw [moderate_text, if_neg (by linarith), if_neg (by linarith),
      if_neg (by linarith)]
    exact ⟨rfl, rfl, rfl⟩
  · intro hp
    have h7 := profanity_le_max_severity content hp
    refine ⟨hconf ▸ h7, ?_⟩
    rw [moderate_text]
    split_ifs with h1
    · exact Or.inr rfl
    · exact Or.inl rfl
  · intro hp hs hph he
    have hcp : check_patterns content = [] := by
      simp [check_patterns, hp, hs, hph, he]
    have hms : max_severity content = 0 := by
      rw [max_severity, hcp]
      rfl
    rw [moderate_text, hms, if_neg (by norm_num), if_neg (by norm_num),
      if_neg (by norm_num)]
    exact ⟨rfl, rfl, rfl⟩

/-- Closed witness for C6: "what the damn thing" is flagged or blocked
with score ≥ 0.7; "hello there" matches nothing and is approved. -/
theorem moderate_text_spec_witness :
    (7/10 ≤ (moderate_text "what the damn thing").confidence_score ∧
      ((moderate_text "what the damn thing").action_required = "flag" ∨
        (moderate_text "what the damn thing").action_required = "block")) ∧
    ((moderate_text "hello there").action_required = "none" ∧
      (moderate_text "hello there").is_appropriate = true) := by
  have h1 := (moderate_text_spec "what the damn thing").2.2.2.2.2.2.1
    (by decide)
  have h2 := (moderate_text_spec "hello there").2.2.2.2.2.2.2
    (by decide) (by decide) (by decide) (by decide)
  exact ⟨⟨h1.1, h1.2⟩, h2.1, h2.2.1⟩


/-- **C7.** Sending a Text message with empty content always fails with a
validation error before any side effect: the serializer rejects the
request, leaving the message table, `last_message_at` and the job queue
untouched; and independently, `Message.save` on an empty-content text
message from a participant fails in `clean` before anything is
persisted. -/
theorem send_empty_text_rejected (s : ChatStore) (jobs : List PipelineJob)
    (user conversation_id : Nat) (content : Option String)
    (has_file : Bool) (lat lng : Option Int) (reply : Option Nat)
    (now : Nat) (hc : contentFalsy content = true) :
    message_viewset_send s jobs user conversation_id MessageType.text
        content has_file lat lng reply now =
      (SendResult.bad_request "Text message cannot be empty", s, jobs) ∧
    ∀ conv m, is_participant s conv m.sender_id = true →
      m.message_type = MessageType.text → contentFalsy m.content = true →
      message_save s conv m now =
        Except.error "Text messages must have content." := by
  constructor
  · simp [message_viewset_send, send_serializer_validate, hc]
  · intro conv m hp hm hcm
    simp [message_save, message_clean, hp, hm, hcm]

/-- Closed witness for C7: the concrete empty-content send against the
direct conversation of `dmStore` is rejected with the store and job
queue unchanged, and the model-level save fails in validation. -/
theorem send_empty_text_rejected_witness :
    message_viewset_send dmStore [] 1 7 MessageType.text (some "") false
        none none none 5 =
      (SendResult.bad_request "Text message cannot be empty", dmStore,
       []) ∧
    message_save dmStore dmConv
        { id := 4, conversation_id := 7, sender_id := 1,
          message_type := MessageType.text, content := some "" } 5 =
      Except.error "Text messages must have content." := by
  have h := send_empty_text_rejected dmStore [] 1 7 (some "") false none
    none none 5 rfl
  exact ⟨h.1,
    h.2 dmConv
      { id := 4, conversation_id := 7, sender_id := 1,
        message_type := MessageType.text, content := some "" }
      rfl rfl rfl⟩


/-- `message_get_object` never reads the reaction table. -/
lemma message_get_object_reactions (s : ChatStore)
    (rs : List MessageReaction) (u : Nat) (cid : Option Nat) (pk : Nat) :
    message_get_object { s with reactions := rs } u cid pk =
      message_get_object s u cid pk := by
  cases cid <;> rfl

/-- `is_participant` never reads the reaction table. -/
lemma is_participant_reactions (s : ChatStore) (rs : List MessageReaction)
    (c : Conversation) (u : Nat) :
    is_participant { s with reactions := rs } c u = is_participant s c u :=
  rfl

/-- What a successful `get_object` guarantees: the requester is a
participant of the returned conversation, and the message is the
requested non-deleted row of that conversation. -/
lemma message_get_object_sound (s : ChatStore) (u cid pk : Nat)
    (m : Message) (conv : Conversation)
    (h : message_get_object s u (some cid) pk = some (m, conv)) :
    is_participant s conv u = true ∧ m.conversation_id = conv.id ∧
      m.id = pk ∧ m.is_deleted = false := by
  rw [message_get_object] at h
  cases hf : s.conversations.find? (fun c => c.id = cid) with
  | none =>
      rw [hf] at h
      simp at h
  | some conv2 =>
      rw [hf] at h
      dsimp only at h
      by_cases hp : is_participant s conv2 u = true
      · rw [if_neg (by simp [hp])] at h
        cases hm : s.messages.find? (fun m =>
            m.id = pk && m.conversation_id = conv2.id && !m.is_deleted) with
        | none =>
            rw [hm] at h
            simp at h
        | some m2 =>
            rw [hm] at h
            have hpred := List.find?_some hm
            simp only [Bool.and_eq_true, decide_eq_true_eq,
              Bool.not_eq_true'] at hpred
            simp only [Option.some.injEq, Prod.mk.injEq] at h
            obtain ⟨hm2, hconv2⟩ := h
            subst hm2
            subst hconv2
            exact ⟨hp, hpred.1.2, hpred.1.1, hpred.2⟩
      · rw [if_pos (by simp [Bool.not_eq_true] at hp ⊢; exact hp)] at h
        simp at h

/-- **C8.** `react` and `unreact` require the acting user to be a
participant of the message's conversation (a non-participant gets a 404
from the queryset gate, with the store unchanged); a second reaction
with the same (message, user, emoji) triple is rejected as a uniqueness
violation with the store unchanged, while a second reaction by the same
user on the same message with a different emoji succeeds. -/
theorem react_unreact_spec (s : ChatStore) (user cid pk : Nat)
    (e1 e2 : String) :
    (∀ conv, s.conversations.find? (fun c => c.id = cid) = some conv →
      is_participant s conv user = false →
      message_viewset_react s user (some cid) pk e1 =
        (ReactResult.not_found, s) ∧
      message_viewset_remove_reaction s user (some cid) pk (some e1) =
        (ReactResult.not_found, s)) ∧
    (∀ m conv,
      message_get_object s user (some cid) pk = some (m, conv) →
      reaction_exists s m.id user e1 = false →
      reaction_exists s m.id user e2 = false →
      e1 ≠ e2 →
      (message_viewset_react s user (some cid) pk e1).1 =
        ReactResult.created ∧
      (message_viewset_react
          (message_viewset_react s user (some cid) pk e1).2
          user (some cid) pk e1).1 =
        ReactResult.bad_request
          "UNIQUE constraint failed: message, user, emoji" ∧
      (message_viewset_react
          (message_viewset_react s user (some cid) pk e1).2
          user (some cid) pk e2).1 = ReactResult.created) := by
  constructor
  · intro conv hf hp
    constructor
    · simp [message_viewset_react, message_get_object, hf, hp]
    · simp [message_viewset_remove_reaction, message_get_object, hf, hp]
  · intro m conv hobj h1 h2 hne
    obtain ⟨hpart, hconv, hpk, hdel⟩ :=
      message_get_object_sound s user cid pk m conv hobj
    have hr1 : message_viewset_react s user (some cid) pk e1 =
        (ReactResult.created,
         { s with
           reactions := s.reactions ++
             [{ message_id := m.id, user_id := user, emoji := e1 }] }) := by
      simp [message_viewset_react, hobj, hpart, h1]
    have hobj1 : message_get_object
        { s with
          reactions := s.reactions ++
            [{ message_id := m.id, user_id := user, emoji := e1 }] }
        user (some cid) pk = some (m, conv) :=
      (message_get_object_reactions s _ user (some cid) pk).trans hobj
    have hex1 : reaction_exists
        { s with
          reactions := s.reactions ++
            [{ message_id := m.id, user_id := user, emoji := e1 }] }
        m.id user e1 = true := by
      simp only [reaction_exists] at h1 ⊢
      simp [List.any_append, h1]
    have hex2 : reaction_exists
        { s with
          reactions := s.reactions ++
            [{ message_id := m.id, user_id := user, emoji := e1 }] }
        m.id user e2 = false := by
      simp only [reaction_exists] at h2 ⊢
      simp [List.any_append, h2, hne]
    have hpart1 : is_participant
        { s with
          reactions := s.reactions ++
            [{ message_id := m.id, user_id := user, emoji := e1 }] }
        conv user = true :=
      (is_participant_reactions s _ conv user).trans hpart
    refine ⟨by rw [hr1], ?_, ?_⟩
    · rw [hr1]
      simp [message_viewset_react, hobj1, hpart1, hex1]
    · rw [hr1]
      simp [message_viewset_react, hobj1, hpart1, hex2]

/-- Closed witness for C8: user 1 reacts to `dmMessage` with "+1"
(created), a repeat of "+1" is rejected as a duplicate, and "heart" from
the same user on the same message succeeds. -/
theorem react_unreact_spec_witness :
    (message_viewset_react dmStore 1 (some 7) 3 "+1").1 =
      ReactResult.created ∧
    (message_viewset_react
        (message_viewset_react dmStore 1 (some 7) 3 "+1").2
        1 (some 7) 3 "+1").1 =
      ReactResult.bad_request
        "UNIQUE constraint failed: message, user, emoji" ∧
    (message_viewset_react
        (message_viewset_react dmStore 1 (some 7) 3 "+1").2
        1 (some 7) 3 "heart").1 = ReactResult.created := by
  have h := (react_unreact_spec dmStore 1 7 3 "+1" "heart").2 dmMessage
    dmConv rfl rfl rfl (by decide)
  exact h


/-- **C9.** The encryption task is broken, not idempotent-by-design: on
EVERY invocation `process_message_encryption` raises ImportError at
`from .encryption import encrypt_message_content` (the name is a method
of `MessageEncryption`, not a module-level function; the import sits
outside the `try` block) and leaves the store untouched, so no message
is ever encrypted and the claimed already-encrypted no-op path is
unreachable.  Running it twice trivially equals running it once — both
do nothing. -/
theorem process_message_encryption_never_encrypts (s : ChatStore)
    (message_id : Nat) :
    process_message_encryption s message_id =
      (s, EncryptionTaskResult.raised
        ("ImportError: cannot import name " ++
          "encrypt_message_content")) ∧
    process_message_encryption
        (process_message_encryption s message_id).1 message_id =
      process_message_encryption s message_id :=
  ⟨rfl, rfl⟩

/-- Membership in ids as the `__in` filter computes it. -/
lemma contains_of_mem {a : Nat} {l : List Nat} (h : a ∈ l) :
    l.contains a = true := by
  simpa using h

/-- **C10.** `bulk_mark_read` sets `status = READ` and `read_at = now`
for every listed message that belongs to one of the requester's
conversations (per `get_user_conversations`) and was not sent by the
requester — unconditionally on the message's current status, including
messages already read (whose `read_at` is overwritten) and failed
messages — whereas `mark_as_read` is a no-op on read and failed
messages, so the bulk path bypasses the forward-only transition. -/
theorem bulk_mark_read_spec (s : ChatStore) (user : Nat)
    (ids : List Nat) (now : Nat) :
    (∀ m ∈ s.messages,
      m.id ∈ ids →
      (∃ c ∈ get_user_conversations s.conversations s.participants user,
        c.id = m.conversation_id) →
      m.sender_id ≠ user →
      { m with status := MessageStatus.read, read_at := some now } ∈
        (bulk_mark_read s user ids now).1.messages) ∧
    (∀ m : Message,
      m.status = MessageStatus.failed ∨ m.status = MessageStatus.read →
      mark_as_read now m = m) := by
  constructor
  · intro m hm hid hconv hsend
    obtain ⟨c, hc, hcid⟩ := hconv
    have hhit : (ids.contains m.id &&
        (get_user_conversations s.conversations s.participants
          user).any (fun c => c.id = m.conversation_id) &&
        !(m.sender_id = user)) = true := by
      simp only [Bool.and_eq_true, Bool.not_eq_true',
        decide_eq_false_iff_not]
      refine ⟨⟨contains_of_mem hid, ?_⟩, hsend⟩
      exact List.any_eq_true.mpr ⟨c, hc, by simp [hcid]⟩
    have : (fun mm : Message =>
        if ids.contains mm.id &&
            (get_user_conversations s.conversations s.participants
              user).any (fun c => c.id = mm.conversation_id) &&
            !(mm.sender_id = user) then
          { mm with status := MessageStatus.read, read_at := some now }
        else mm) m =
        { m with status := MessageStatus.read, read_at := some now } := by
      dsimp only
      rw [if_pos hhit]
    rw [bulk_mark_read]
    rw [← this]
    exact List.mem_map_of_mem _ hm
  · intro m hm
    rcases hm with h | h <;> simp [mark_as_read, h]

/-- Closed witness for C10: user 1 bulk-marks `dmMessage` (sent by user
2, in 1's direct conversation); the store afterwards holds the message
with `status = read` and `read_at = 9`. -/
theorem bulk_mark_read_spec_witness :
    { dmMessage with
        status := MessageStatus.read, read_at := some 9 } ∈
      (bulk_mark_read dmStore 1 [3] 9).1.messages ∧
    mark_as_read 9 { dmMessage with status := MessageStatus.failed } =
      { dmMessage with status := MessageStatus.failed } := by
  have h := bulk_mark_read_spec dmStore 1 [3] 9
  refine ⟨h.1 dmMessage (by simp [dmStore]) (by simp [dmMessage]) ?_
      (by simp [dmMessage]),
    h.2 _ (Or.inl rfl)⟩
  refine ⟨dmConv, ?_, rfl⟩
  rw [get_user_conversations]
  have hfil : [dmConv].filter (fun c =>
      directBranchFilter 1 c || groupBranchFilter [] 1 c) = [dmConv] := rfl
  rw [show dmStore.conversations = [dmConv] from rfl,
    show dmStore.participants = ([] : List ConversationParticipant)
      from rfl, hfil, List.mergeSort_singleton]
  simp

end ChatService
